import Mathlib

/-!
Shallow embedding of the provider-adapter aggregation layer of the
obsidian888-nns plugin: the gateway fallback/dispatch logic
(src/gateways/TextGateway.ts, src/gateways/ImageGateway.ts), the
model-validation protocol of the base adapters
(src/adapters/base/AnthropicBaseAdapter.ts, GeminiBaseAdapter.ts),
the versioned-API retry loop of GeminiTextAdapter, the response
parsing of the text adapters, and the request-body construction of
OpenAIImageAdapter.  Asynchronous HTTP calls are abstracted as
explicit outcome parameters (`Except` values or functions producing
them); JavaScript `throw`/`catch` becomes `Except`; JavaScript
string falsiness (`x || y`) is modelled explicitly.
-/

/-- JavaScript `a || b` on strings: the empty string is falsy. -/
def jsOr (a b : String) : String := if a = "" then b else a

/-- JavaScript `o || b` where `o` may be `undefined` (modelled as `none`). -/
def jsOrOpt (o : Option String) (b : String) : String :=
  match o with
  | some s => jsOr s b
  | none => b

/-- Error kinds the gateway and adapters surface (src/gateways, §7 of the
design).  `noAdapter` is the ConfigurationError the gateway itself throws
when the default provider has no adapter. -/
inductive GwErr where
  | noAdapter (provider : String)
  | providerErr (status : Nat) (msg : String)
  | protocolErr (msg : String)
  deriving DecidableEq, Repr

/-- Normalized text request (src/core/Adapter.ts, LLMRequest). -/
structure LLMRequest where
  prompt : String
  model : Option String := none
  temperature : Option Nat := none
  maxTokens : Option Nat := none
  systemPrompt : Option String := none
  deriving DecidableEq, Repr

/-- Normalized text result (src/core/Adapter.ts, LLMResponse). -/
structure LLMResponse where
  output : String
  tokensUsed : Option Nat := none
  deriving DecidableEq, Repr

/-- Gateway dispatch shared by TextGateway.generate and
ImageGateway.generate (src/gateways/TextGateway.ts lines 78-99,
src/gateways/ImageGateway.ts lines 65-79).  `adapters` is the adapter
record (lookup by provider key; `none` models an absent entry), an
adapter is its `generate` function abstracted as request to outcome, and
the returned list is the trace of adapter invocations, in order, by
provider key.  The source throws the no-adapter error inside the `try`
block, so it is caught by the same `catch` that drives backup fallback;
the embedding reproduces that by routing every error of the first step
through the single backup check. -/
def gatewayGenerate {ρ α : Type} (adapters : String → Option (ρ → Except GwErr α))
    (defaultProvider backupProvider : String) (req : ρ) :
    Except GwErr α × List String :=
  let tried : Except GwErr α × List String :=
    match adapters defaultProvider with
    | none => (Except.error (GwErr.noAdapter defaultProvider), [])
    | some primary =>
      match primary req with
      | Except.ok res => (Except.ok res, [defaultProvider])
      | Except.error e => (Except.error e, [defaultProvider])
  match tried with
  | (Except.ok res, tr) => (Except.ok res, tr)
  | (Except.error e, tr) =>
    if backupProvider ≠ "" then
      match adapters backupProvider with
      | some backup =>
        match backup req with
        | Except.ok res => (Except.ok res, tr ++ [backupProvider])
        | Except.error e2 => (Except.error e2, tr ++ [backupProvider])
      | none => (Except.error e, tr)
    else (Except.error e, tr)

/-- TextGateway.generate: the gateway dispatch followed by the
`res.output` projection the source applies in both branches
(src/gateways/TextGateway.ts lines 84-97). -/
def textGatewayGenerate (adapters : String → Option (LLMRequest → Except GwErr LLMResponse))
    (defaultProvider backupProvider : String) (req : LLMRequest) :
    Except GwErr String × List String :=
  let r := gatewayGenerate adapters defaultProvider backupProvider req
  (r.1.map (fun res => res.output), r.2)

/-- The `model || defaultModel` candidate computed at the top of every
validateModelInternal (the request model is optional; an empty string is
falsy in the source). -/
def jsCandidate (model : Option String) (defaultModel : String) : String :=
  jsOrOpt model defaultModel

/-- AnthropicBaseAdapter.validateModelInternal
(src/adapters/base/AnthropicBaseAdapter.ts lines 57-87).  The live
model-list fetch is abstracted as its outcome `fetchResult`; the
source's `try` block covers both the fetch and the final
`throw new Error('No valid models available')`, and its `catch` returns
`defaultModel || fallbackModel`, so both the fetch-error path and the
nothing-matched path land on `jsOr defaultModel fallbackModel`.  The
function is total: it always returns a model id and never raises. -/
def anthropicValidateModel (fetchResult : Except String (List String))
    (model : Option String) (defaultModel fallbackModel : String) : String :=
  let candidateModel := jsCandidate model defaultModel
  match fetchResult with
  | Except.error _ => jsOr defaultModel fallbackModel
  | Except.ok availableModels =>
    if candidateModel ∈ availableModels then candidateModel
    else if defaultModel ∈ availableModels then defaultModel
    else if fallbackModel ∈ availableModels then fallbackModel
    else jsOr defaultModel fallbackModel

/-- The `m.replace(/^models\//, '')` normalization of
GeminiBaseAdapter: strip one leading "models/" namespace.  Expressed on
the underlying character list so that concrete instances evaluate. -/
def stripModelsNs (s : String) : String :=
  if s.data.take 7 = "models/".data then String.mk (s.data.drop 7) else s

/-- GeminiBaseAdapter.validateModelInternal
(src/adapters/base/GeminiBaseAdapter.ts lines 63-95).  Identical to the
Anthropic validator except that the live list — and only the live list —
is normalized with `stripModelsNs` before the membership tests; the
candidate, default and fallback ids are compared unnormalized. -/
def geminiValidateModel (fetchResult : Except String (List String))
    (model : Option String) (defaultModel fallbackModel : String) : String :=
  let candidateModel := jsCandidate model defaultModel
  match fetchResult with
  | Except.error _ => jsOr defaultModel fallbackModel
  | Except.ok availableModels =>
    let normalizedModels := availableModels.map stripModelsNs
    if candidateModel ∈ normalizedModels then candidateModel
    else if defaultModel ∈ normalizedModels then defaultModel
    else if fallbackModel ∈ normalizedModels then fallbackModel
    else jsOr defaultModel fallbackModel

/-- The fixed API-version order of GeminiBaseAdapter
(src/adapters/base/GeminiBaseAdapter.ts line 5). -/
def geminiApiVersions : List String := ["v1", "v1beta"]

/-- The hard-coded fallback model list GeminiBaseAdapter.fetchModels
returns when every fetch attempt fails (GeminiBaseAdapter.ts line 135). -/
def geminiFallbackModels : List String :=
  ["gemini-1.5-pro-latest", "gemini-1.5-flash-latest"]

/-- Post-processing of a successful Gemini models response
(GeminiBaseAdapter.ts lines 123-126): strip the "models/" namespace and
keep only names starting with "gemini". -/
def geminiProcessModels (names : List String) : List String :=
  (names.map stripModelsNs).filter (fun m => decide (m.data.take 6 = "gemini".data))

/-- The per-version loop of GeminiBaseAdapter.fetchModels
(GeminiBaseAdapter.ts lines 104-131): the first version whose fetch
attempt succeeds wins; a failed attempt records the error and continues;
exhausting the versions re-raises the last error, which the outer catch
turns into the hard-coded fallback list. -/
def geminiFetchVersions (attempt : String → Except String (List String)) :
    List String → List String
  | [] => geminiFallbackModels
  | v :: rest =>
    match attempt v with
    | Except.ok names => geminiProcessModels names
    | Except.error _ => geminiFetchVersions attempt rest

/-- GeminiBaseAdapter.fetchModels (GeminiBaseAdapter.ts lines 97-137).
The whole body sits in a `try` whose `catch` returns
`geminiFallbackModels`, so the function is total — it never propagates
an error: a missing API key (thrown then caught) and an all-versions
failure both yield the hard-coded list.  `attempt v` abstracts the HTTP
fetch of `/{v}/models` together with its status check and JSON parse. -/
def geminiFetchModels (apiKey : String)
    (attempt : String → Except String (List String)) : List String :=
  if apiKey = "" then geminiFallbackModels
  else geminiFetchVersions attempt geminiApiVersions

/-- The default model GeminiTextAdapter bakes in as its known-good
fallback (src/adapters/text/GeminiTextAdapter.ts line 6). -/
def geminiTextFallbackModel : String := "gemini-1.5-pro-latest"

/-- The registry default model for the gemini provider
(src/settings/providers/index.ts line 22). -/
def geminiRegistryDefaultModel : String := "models/gemini-pro"

/-- The per-version generation loop of GeminiTextAdapter.generate
(src/adapters/text/GeminiTextAdapter.ts lines 43-79): try each API
version in order, return the first success, remember the last error;
after the loop throw the last error (or the generic message when no
version was attempted).  `attempt v` abstracts one
`makeRequest(models/{model}:generateContent, body, POST, v)` call
together with the response-format check and text extraction;  the list
returned alongside the outcome is the trace of versions attempted, in
order. -/
def geminiTryVersions (attempt : String → Except String String) :
    List String → Option String → List String → Except String String × List String
  | [], lastError, tr =>
    (Except.error (lastError.getD "All API versions failed to generate content"), tr)
  | v :: rest, _, tr =>
    match attempt v with
    | Except.ok out => (Except.ok out, tr ++ [v])
    | Except.error e => geminiTryVersions attempt rest (some e) (tr ++ [v])

/-- GeminiTextAdapter.generate after model validation: the version loop
run over the adapter's fixed version order. -/
def geminiTextGenerate (attempt : String → Except String String) :
    Except String String × List String :=
  geminiTryVersions attempt geminiApiVersions none []

/-- Chat-completion message as the adapters see it: `content` is `none`
when the field is absent. -/
structure ChatMessage where
  content : Option String
  deriving DecidableEq, Repr

/-- One element of the `choices` array; `message` may be absent. -/
structure ChatChoice where
  message : Option ChatMessage
  deriving DecidableEq, Repr

/-- The 2xx response body as far as the text adapters inspect it:
`choices = none` models a body where `choices` is absent or not an
array, `some cs` models an actual array. -/
structure ChatJson where
  choices : Option (List ChatChoice)
  deriving DecidableEq, Repr

/-- The optional chain `json.choices[0]?.message?.content` evaluated on
the embedded body. -/
def chatContent (j : ChatJson) : Option String :=
  ((j.choices.getD []).head?.bind (fun c => c.message)).bind (fun m => m.content)

/-- Whitespace as JavaScript String.prototype.trim treats it (restricted
to the common ASCII whitespace; the model ids and outputs at play are
ASCII). -/
def wsChar (c : Char) : Bool :=
  decide (c = ' ' ∨ c = '\t' ∨ c = '\n' ∨ c = '\r')

/-- The `.trim()` call of the adapters, expressed on the character list
so that concrete instances evaluate. -/
def strTrim (s : String) : String :=
  String.mk (((s.data.dropWhile wsChar).reverse.dropWhile wsChar).reverse)

/-- OpenAITextAdapter.generate response handling
(src/adapters/text/OpenAITextAdapter.ts lines 41-46): the guard
`!data.choices || !Array.isArray(data.choices) ||
!data.choices[0]?.message?.content` throws the format error — note the
JavaScript truthiness test also rejects an empty content string — and on
success the output is the trimmed content. -/
def openAITextParse (j : ChatJson) : Except GwErr String :=
  if j.choices = none ∨ (chatContent j).getD "" = "" then
    Except.error (GwErr.protocolErr "Unexpected OpenAI API response format")
  else Except.ok (strTrim ((chatContent j).getD ""))

/-- OpenRouterAdapter.generate response handling (src/unnamed/part_003
lines 698-711): the guard checks only that `choices` exists and is an
array; the nested text is then read with
`json.choices[0]?.message?.content ?? ''`, so a present-but-empty chain
resolves with the empty string untrimmed. -/
def openRouterParse (j : ChatJson) : Except GwErr String :=
  match j.choices with
  | none => Except.error (GwErr.protocolErr "Unexpected OpenRouter API response format")
  | some _ => Except.ok ((chatContent j).getD "")

/-- Image quality enum (src/core/Adapter.ts, ImageRequest.quality). -/
inductive ImgQuality where
  | standard | hd | low | medium | high | auto
  deriving DecidableEq, Repr

/-- Normalized image request (src/core/Adapter.ts, ImageRequest).
Counts are naturals; an explicit `some 0` is falsy in the source's
`request.n || 1`. -/
structure ImageRequest where
  prompt : String
  model : Option String := none
  size : Option String := none
  n : Option Nat := none
  quality : Option ImgQuality := none
  response_format : Option String := none
  user : Option String := none
  output_format : Option String := none
  background : Option String := none
  moderation : Option Bool := none
  output_compression : Option String := none
  deriving DecidableEq, Repr

/-- The request body OpenAIImageAdapter sends to images/generations;
optional fields are `none` when the source leaves them off the body. -/
structure ImageBody where
  prompt : String
  model : String
  n : Nat
  size : String
  quality : Option ImgQuality := none
  response_format : Option String := none
  output_format : Option String := none
  background : Option String := none
  moderation : Option Bool := none
  output_compression : Option String := none
  user : Option String := none
  deriving DecidableEq, Repr

/-- Supported models table of OpenAIImageAdapter.generate
(src/adapters/image/OpenAIImageAdapter.ts line 16). -/
def imgSupportedModels : List String := ["dall-e-3", "dall-e-2", "gpt-image-1"]

/-- Per-model size allow-list (OpenAIImageAdapter.ts lines 17-21). -/
def imgSupportedSizes (model : String) : List String :=
  if model = "dall-e-3" then ["1024x1024", "1792x1024", "1024x1792"]
  else if model = "dall-e-2" then ["256x256", "512x512", "1024x1024"]
  else if model = "gpt-image-1" then ["1024x1024", "1536x1024", "1024x1536"]
  else []

/-- Per-model maximum image count (OpenAIImageAdapter.ts lines 22-26). -/
def imgMaxN (model : String) : Nat :=
  if model = "dall-e-3" then 1
  else if model = "dall-e-2" then 10
  else if model = "gpt-image-1" then 10
  else 0

/-- Per-model quality allow-list (OpenAIImageAdapter.ts lines 27-31);
dall-e-2 has no allowed values. -/
def imgSupportedQualities (model : String) : List ImgQuality :=
  if model = "dall-e-3" then [ImgQuality.standard, ImgQuality.hd]
  else if model = "gpt-image-1" then
    [ImgQuality.low, ImgQuality.medium, ImgQuality.high, ImgQuality.auto]
  else []

/-- Supported output formats for gpt-image-1 (OpenAIImageAdapter.ts line 32). -/
def imgSupportedOutputFormats : List String := ["png", "jpeg", "webp"]

/-- The size validation of OpenAIImageAdapter.generate
(OpenAIImageAdapter.ts lines 38-40): a truthy requested size present in
the model's allow-list passes through; anything else falls back to the
first allowed size. -/
def imgResolveSize (model : String) (rsize : Option String) : String :=
  match rsize with
  | some s => if s ≠ "" ∧ s ∈ imgSupportedSizes model then s
              else (imgSupportedSizes model).headD ""
  | none => (imgSupportedSizes model).headD ""

/-- The `Math.min(request.n || 1, maxN[model])` clamp
(OpenAIImageAdapter.ts line 42): an absent or zero (falsy) requested
count counts as 1. -/
def imgResolveN (model : String) (rn : Option Nat) : Nat :=
  min (match rn with
       | some k => if k = 0 then 1 else k
       | none => 1) (imgMaxN model)

/-- The quality resolution (OpenAIImageAdapter.ts lines 44-47): default
`standard` for dall-e-3 and `auto` otherwise, then replaced by the first
allowed value when the model has allowed values and the resolved one is
not among them. -/
def imgResolveQuality (model : String) (rq : Option ImgQuality) : ImgQuality :=
  let quality0 :=
    match rq with
    | some q => q
    | none => if model = "dall-e-3" then ImgQuality.standard else ImgQuality.auto
  if imgSupportedQualities model ≠ [] ∧ quality0 ∉ imgSupportedQualities model
  then (imgSupportedQualities model).headD ImgQuality.standard
  else quality0

/-- The quality field actually placed on the body
(OpenAIImageAdapter.ts lines 61-74): gpt-image-1 carries the resolved
quality unless it is `auto`; dall-e-3 always carries it; dall-e-2
carries none. -/
def imgQualityField (model : String) (rq : Option ImgQuality) : Option ImgQuality :=
  if model = "gpt-image-1" then
    if imgResolveQuality model rq ≠ ImgQuality.auto
    then some (imgResolveQuality model rq) else none
  else if model = "dall-e-3" then some (imgResolveQuality model rq)
  else none

/-- The output-format resolution for gpt-image-1
(OpenAIImageAdapter.ts lines 49-52). -/
def imgResolveOutputFormat (model : String) (rof : Option String) : String :=
  let outputFormat0 := jsOrOpt rof "png"
  if model = "gpt-image-1" ∧ outputFormat0 ∉ imgSupportedOutputFormats
  then "png" else outputFormat0

/-- Request-body construction of OpenAIImageAdapter.generate
(src/adapters/image/OpenAIImageAdapter.ts lines 13-79), everything up to
the HTTP call: resolve the model (`request.model || defaultModel`),
reject unsupported models, then assemble the body from the resolvers
above with its model-dependent optional fields: gpt-image-1 gets
`output_format` plus the pass-through extras; the dall-e models get
`response_format` (`request.response_format || 'b64_json'`). -/
def buildImageBody (defaultModel : String) (r : ImageRequest) :
    Except String ImageBody :=
  let model := jsOrOpt r.model defaultModel
  if model ∉ imgSupportedModels then
    Except.error ("Unsupported model: " ++ model)
  else if model = "gpt-image-1" then
    Except.ok
      { prompt := r.prompt, model := model
        n := imgResolveN model r.n
        size := imgResolveSize model r.size
        quality := imgQualityField model r.quality
        output_format := some (imgResolveOutputFormat model r.output_format)
        background := match r.background with
                      | some b => if b = "" then none else some b
                      | none => none
        moderation := r.moderation
        output_compression := match r.output_compression with
                              | some c => if c = "" then none else some c
                              | none => none
        user := match r.user with
                | some u => if u = "" then none else some u
                | none => none }
  else
    Except.ok
      { prompt := r.prompt, model := model
        n := imgResolveN model r.n
        size := imgResolveSize model r.size
        response_format := some (jsOrOpt r.response_format "b64_json")
        quality := imgQualityField model r.quality
        user := match r.user with
                | some u => if u = "" then none else some u
                | none => none }

/-- Example adapter map with a single adapter under key "b" returning
output "ok-b"; keys "a" etc. are absent. -/
def exBackupOnlyAdapters : String → Option (LLMRequest → Except GwErr LLMResponse) :=
  fun key => if key = "b" then
    some (fun _ => Except.ok { output := "ok-b" })
  else none

/-- Example adapter map with no adapters at all. -/
def exNoAdapters : String → Option (LLMRequest → Except GwErr LLMResponse) :=
  fun _ => none

/-- Example adapter map: "a" raises a 503 ProviderError, "b" succeeds
with output "ok", "c" raises a 429 ProviderError. -/
def exFailoverAdapters : String → Option (LLMRequest → Except GwErr LLMResponse) :=
  fun key => if key = "a" then
    some (fun _ => Except.error (GwErr.providerErr 503 "down"))
  else if key = "b" then
    some (fun _ => Except.ok { output := "ok" })
  else if key = "c" then
    some (fun _ => Except.error (GwErr.providerErr 429 "limited"))
  else none

/-- Example adapter map: "a" succeeds with an empty output, "b" succeeds
with output "backup". -/
def exEmptyOutputAdapters : String → Option (LLMRequest → Except GwErr LLMResponse) :=
  fun key => if key = "a" then
    some (fun _ => Except.ok { output := "" })
  else if key = "b" then
    some (fun _ => Except.ok { output := "backup" })
  else none

/-- Example per-version attempt whose "v1" call succeeds. -/
def exV1Ok : String → Except String String :=
  fun v => if v = "v1" then Except.ok "from-v1" else Except.error "beta-down"

/-- Example per-version attempt where "v1" fails and "v1beta" succeeds. -/
def exV1Fail : String → Except String String :=
  fun v => if v = "v1beta" then Except.ok "from-beta" else Except.error "v1-down"

/-- Example per-version attempt where every version fails, with distinct
errors so the propagated one is identifiable. -/
def exAllFail : String → Except String String :=
  fun v => if v = "v1" then Except.error "e1" else Except.error "e2"

/-- Example per-version model-fetch attempt where every version fails
(a total provider outage). -/
def exFetchOutage : String → Except String (List String) :=
  fun _ => Except.error "network down"

/-- C1.  The claim says a gateway whose adapter map holds no adapter for
the default provider fails immediately with the ConfigurationError
regardless of any backup.  Concrete refutation: the adapter map holds no
adapter for default provider "a", a backup "b" exists, and
TextGateway.generate returns the backup's output "ok-b" instead of
failing — because the source throws the no-adapter error inside the
`try` block, where the backup `catch` swallows it. -/
theorem c1_counterexample :
    exBackupOnlyAdapters "a" = none ∧
    textGatewayGenerate exBackupOnlyAdapters "a" "b" { prompt := "Hello" } =
      (Except.ok "ok-b", ["b"]) := by
  exact ⟨rfl, rfl⟩

/-- C1 amended.  When the adapter map holds no adapter for the default
provider: if no backup adapter is available (backup key falsy or no
adapter under it) the gateway fails with the no-adapter
ConfigurationError; if a backup adapter exists, the missing-default
error is caught like any other failure and the backup adapter's outcome
is returned (the backup being the only adapter invoked). -/
theorem c1_amended {ρ α : Type} (adapters : String → Option (ρ → Except GwErr α))
    (defP backP : String) (req : ρ)
    (hnone : adapters defP = none) :
    ((backP = "" ∨ adapters backP = none) →
      gatewayGenerate adapters defP backP req =
        (Except.error (GwErr.noAdapter defP), [])) ∧
    (∀ backup, backP ≠ "" → adapters backP = some backup →
      gatewayGenerate adapters defP backP req =
        (match backup req with
         | Except.ok res => (Except.ok res, [backP])
         | Except.error e2 => (Except.error e2, [backP]))) := by
  constructor
  · intro h
    rcases h with h | h
    · simp [gatewayGenerate, hnone, h]
    · by_cases hb : backP = ""
      · simp [gatewayGenerate, hnone, hb]
      · simp [gatewayGenerate, hnone, hb, h]
  · intro backup hb hsome
    simp only [gatewayGenerate, hnone]
    simp only [if_pos hb, hsome]
    cases backup req <;> rfl

/-- Closed instantiation of the amended C1: a gateway with no adapters
at all fails with the ConfigurationError, and a gateway whose only
adapter is the backup returns the backup's output. -/
theorem c1_amended_witness :
    gatewayGenerate exNoAdapters "a" "" { prompt := "p" } =
      (Except.error (GwErr.noAdapter "a"), []) ∧
    gatewayGenerate exBackupOnlyAdapters "a" "b" { prompt := "p" } =
      (Except.ok ({ output := "ok-b" } : LLMResponse), ["b"]) := by
  constructor
  · exact (c1_amended exNoAdapters "a" "" { prompt := "p" } rfl).1 (Or.inl rfl)
  · exact (c1_amended exBackupOnlyAdapters "a" "b" { prompt := "p" } rfl).2
      (fun _ => Except.ok { output := "ok-b" }) (by decide) rfl

/-- C2.  If the default adapter's generate raises: with a backup adapter
available, the backup is invoked exactly once (invocation trace
[default, backup]) and its outcome is what the gateway returns — its
output on success, its own error on failure; with no backup available,
the original default-provider error propagates unchanged; the
invocation trace never exceeds two entries, so no third attempt is ever
made. -/
theorem c2_backup_fallback {ρ α : Type}
    (adapters : String → Option (ρ → Except GwErr α))
    (defP backP : String) (req : ρ) (a : ρ → Except GwErr α) (e : GwErr)
    (hdef : adapters defP = some a) (herr : a req = Except.error e) :
    (∀ backup, backP ≠ "" → adapters backP = some backup →
      gatewayGenerate adapters defP backP req =
        (match backup req with
         | Except.ok res => (Except.ok res, [defP, backP])
         | Except.error e2 => (Except.error e2, [defP, backP]))) ∧
    ((backP = "" ∨ adapters backP = none) →
      gatewayGenerate adapters defP backP req = (Except.error e, [defP])) ∧
    (gatewayGenerate adapters defP backP req).2.length ≤ 2 := by
  refine ⟨?_, ?_, ?_⟩
  · intro backup hb hsome
    simp only [gatewayGenerate, hdef, herr]
    simp only [if_pos hb, hsome]
    cases backup req <;> rfl
  · intro h
    rcases h with h | h
    · simp [gatewayGenerate, hdef, herr, h]
    · by_cases hb : backP = ""
      · simp [gatewayGenerate, hdef, herr, hb]
      · simp [gatewayGenerate, hdef, herr, hb, h]
  · simp only [gatewayGenerate, hdef, herr]
    by_cases hb : backP = ""
    · simp [hb]
    · simp only [if_pos hb]
      cases hsome : adapters backP with
      | none => simp
      | some backup => cases hreq : backup req <;> simp [hreq]

/-- Closed instantiation of C2: default "a" raises a 503 ProviderError;
with backup "b" returning "ok" the gateway resolves to "ok" after
invoking [a, b]; with backup "c" raising its own error, that error (not
the default's) propagates; with no backup, the original 503 propagates
with trace [a]. -/
theorem c2_backup_fallback_witness :
    gatewayGenerate exFailoverAdapters "a" "b" { prompt := "p" } =
      (Except.ok ({ output := "ok" } : LLMResponse), ["a", "b"]) ∧
    gatewayGenerate exFailoverAdapters "a" "c" { prompt := "p" } =
      (Except.error (GwErr.providerErr 429 "limited"), ["a", "c"]) ∧
    gatewayGenerate exFailoverAdapters "a" "" { prompt := "p" } =
      (Except.error (GwErr.providerErr 503 "down"), ["a"]) := by
  refine ⟨?_, ?_, ?_⟩
  · exact (c2_backup_fallback exFailoverAdapters "a" "b" { prompt := "p" }
      (fun _ => Except.error (GwErr.providerErr 503 "down"))
      (GwErr.providerErr 503 "down") rfl rfl).1
      (fun _ => Except.ok { output := "ok" }) (by decide) rfl
  · exact (c2_backup_fallback exFailoverAdapters "a" "c" { prompt := "p" }
      (fun _ => Except.error (GwErr.providerErr 503 "down"))
      (GwErr.providerErr 503 "down") rfl rfl).1
      (fun _ => Except.error (GwErr.providerErr 429 "limited")) (by decide) rfl
  · exact (c2_backup_fallback exFailoverAdapters "a" "" { prompt := "p" }
      (fun _ => Except.error (GwErr.providerErr 503 "down"))
      (GwErr.providerErr 503 "down") rfl rfl).2.1 (Or.inl rfl)

/-- C3.  If the default adapter's generate resolves, TextGateway.generate
returns exactly that adapter's output with invocation trace [default]
only — the backup is never invoked — with no condition on the output
string, which may in particular be empty. -/
theorem c3_no_fallback_on_success
    (adapters : String → Option (LLMRequest → Except GwErr LLMResponse))
    (defP backP : String) (req : LLMRequest)
    (a : LLMRequest → Except GwErr LLMResponse) (res : LLMResponse)
    (hdef : adapters defP = some a) (hok : a req = Except.ok res) :
    textGatewayGenerate adapters defP backP req = (Except.ok res.output, [defP]) := by
  simp [textGatewayGenerate, gatewayGenerate, hdef, hok, Except.map]

/-- Closed instantiation of C3: the default adapter succeeds with an
empty output while a working backup is configured; the gateway still
returns the empty output and only the default adapter is invoked. -/
theorem c3_no_fallback_on_success_witness :
    textGatewayGenerate exEmptyOutputAdapters "a" "b" { prompt := "p" } =
      (Except.ok "", ["a"]) := by
  exact c3_no_fallback_on_success exEmptyOutputAdapters "a" "b" { prompt := "p" }
    (fun _ => Except.ok { output := "" }) { output := "" } rfl rfl

/-- C4.  With a successful live-list fetch the validator resolves in
first-match order: a supplied (non-empty) requested model that appears
in the list is returned exactly; otherwise a default model that appears
in the list is returned; otherwise a fallback model that appears in the
list is returned. -/
theorem c4_validator_first_match (availableModels : List String)
    (model : Option String) (defaultModel fallbackModel : String) :
    (∀ m, model = some m → m ≠ "" → m ∈ availableModels →
      anthropicValidateModel (Except.ok availableModels) model defaultModel fallbackModel
        = m) ∧
    ((∀ m, model = some m → m ∉ availableModels) → defaultModel ∈ availableModels →
      anthropicValidateModel (Except.ok availableModels) model defaultModel fallbackModel
        = defaultModel) ∧
    ((∀ m, model = some m → m ∉ availableModels) → defaultModel ∉ availableModels →
      fallbackModel ∈ availableModels →
      anthropicValidateModel (Except.ok availableModels) model defaultModel fallbackModel
        = fallbackModel) := by
  refine ⟨?_, ?_, ?_⟩
  · intro m hm hne hmem
    subst hm
    simp [anthropicValidateModel, jsCandidate, jsOrOpt, jsOr, hne, hmem]
  · intro hno hd
    cases model with
    | none => simp [anthropicValidateModel, jsCandidate, jsOrOpt, jsOr, hd]
    | some m =>
      have hm := hno m rfl
      by_cases hne : m = ""
      · subst hne
        simp [anthropicValidateModel, jsCandidate, jsOrOpt, jsOr, hd]
      · simp [anthropicValidateModel, jsCandidate, jsOrOpt, jsOr, hne, hm, hd]
  · intro hno hd hf
    cases model with
    | none => simp [anthropicValidateModel, jsCandidate, jsOrOpt, jsOr, hd, hf]
    | some m =>
      have hm := hno m rfl
      by_cases hne : m = ""
      · subst hne
        simp [anthropicValidateModel, jsCandidate, jsOrOpt, jsOr, hd, hf]
      · simp [anthropicValidateModel, jsCandidate, jsOrOpt, jsOr, hne, hm, hd, hf]

/-- Closed instantiation of C4, including the spec's scenario: requested
"gpt-9000" against live list ["gpt-4", "gpt-3.5"] with default "gpt-4"
resolves to "gpt-4"; a requested model present in the list passes
through exactly; and with both requested and default invalid the
fallback is used. -/
theorem c4_validator_first_match_witness :
    anthropicValidateModel (Except.ok ["gpt-4", "gpt-3.5"]) (some "gpt-4")
      "gpt-3.5" "gpt-3.5" = "gpt-4" ∧
    anthropicValidateModel (Except.ok ["gpt-4", "gpt-3.5"]) (some "gpt-9000")
      "gpt-4" "gpt-3.5" = "gpt-4" ∧
    anthropicValidateModel (Except.ok ["gpt-3.5"]) (some "gpt-9000")
      "gpt-4" "gpt-3.5" = "gpt-3.5" := by
  refine ⟨?_, ?_, ?_⟩
  · exact (c4_validator_first_match ["gpt-4", "gpt-3.5"] (some "gpt-4")
      "gpt-3.5" "gpt-3.5").1 "gpt-4" rfl (by decide) (by decide)
  · exact (c4_validator_first_match ["gpt-4", "gpt-3.5"] (some "gpt-9000")
      "gpt-4" "gpt-3.5").2.1
      (by intro m hm; cases hm; decide) (by decide)
  · exact (c4_validator_first_match ["gpt-3.5"] (some "gpt-9000")
      "gpt-4" "gpt-3.5").2.2
      (by intro m hm; cases hm; decide) (by decide) (by decide)

/-- C5.  The validator is total (it returns a model id for every input;
the embedded functions have return type String, never raising), and on
either a failed live-list fetch or a successful fetch where none of
requested, default or fallback model appear in the list, it returns the
default model when non-empty and the fallback model otherwise — for
both the Anthropic and the Gemini validator (their catch branches,
AnthropicBaseAdapter.ts lines 81-86 and GeminiBaseAdapter.ts lines
89-94). -/
theorem c5_validator_never_raises (fetchErr : String) (availableModels : List String)
    (model : Option String) (defaultModel fallbackModel : String) :
    (anthropicValidateModel (Except.error fetchErr) model defaultModel fallbackModel =
      if defaultModel = "" then fallbackModel else defaultModel) ∧
    ((∀ m, model = some m → m ∉ availableModels) → defaultModel ∉ availableModels →
      fallbackModel ∉ availableModels →
      anthropicValidateModel (Except.ok availableModels) model defaultModel fallbackModel =
        if defaultModel = "" then fallbackModel else defaultModel) ∧
    (geminiValidateModel (Except.error fetchErr) model defaultModel fallbackModel =
      if defaultModel = "" then fallbackModel else defaultModel) := by
  refine ⟨?_, ?_, ?_⟩
  · simp [anthropicValidateModel, jsOr]
  · intro hno hd hf
    cases model with
    | none => simp [anthropicValidateModel, jsCandidate, jsOrOpt, jsOr, hd, hf]
    | some m =>
      have hm := hno m rfl
      by_cases hne : m = ""
      · subst hne
        simp [anthropicValidateModel, jsCandidate, jsOrOpt, jsOr, hd, hf]
      · simp [anthropicValidateModel, jsCandidate, jsOrOpt, jsOr, hne, hm, hd, hf]
  · simp [geminiValidateModel, jsOr]

/-- Closed instantiation of C5: a failed fetch yields the non-empty
default; a failed fetch with an empty default yields the fallback; a
successful fetch matching nothing yields the default. -/
theorem c5_validator_never_raises_witness :
    anthropicValidateModel (Except.error "boom") (some "m") "gpt-4" "gpt-3.5"
      = "gpt-4" ∧
    anthropicValidateModel (Except.error "boom") (some "m") "" "gpt-3.5"
      = "gpt-3.5" ∧
    anthropicValidateModel (Except.ok ["other"]) (some "m") "gpt-4" "gpt-3.5"
      = "gpt-4" ∧
    geminiValidateModel (Except.error "boom") none "models/gemini-pro"
      "gemini-1.5-pro-latest" = "models/gemini-pro" := by
  refine ⟨?_, ?_, ?_, ?_⟩
  · exact (c5_validator_never_raises "boom" [] (some "m") "gpt-4" "gpt-3.5").1
  · exact (c5_validator_never_raises "boom" [] (some "m") "" "gpt-3.5").1
  · exact (c5_validator_never_raises "boom" ["other"] (some "m") "gpt-4" "gpt-3.5").2.1
      (by intro x hx; cases hx; decide) (by decide) (by decide)
  · exact (c5_validator_never_raises "boom" [] none "models/gemini-pro"
      "gemini-1.5-pro-latest").2.2

/-- C6.  The claim says prefixes are stripped from both sides of the
comparison and a configured defaultModel of "models/gemini-pro" matches
a live list containing that model and is returned in configured form.
The code strips only the live-list side: with the registry default
"models/gemini-pro" and a live list containing exactly that model (plus
the adapter's fallback), validation of the default fails and the
validator returns the hard-coded fallback "gemini-1.5-pro-latest"
instead; likewise a caller-supplied prefixed id present in the live
list is rejected in favour of the unprefixed default. -/
theorem c6_one_sided_strip_evaluation :
    geminiValidateModel
      (Except.ok ["models/gemini-pro", "models/gemini-1.5-pro-latest"])
      none geminiRegistryDefaultModel geminiTextFallbackModel
      = "gemini-1.5-pro-latest" ∧
    geminiRegistryDefaultModel = "models/gemini-pro" ∧
    geminiValidateModel
      (Except.ok ["models/gemini-pro", "models/gemini-1.5-pro-latest"])
      none geminiRegistryDefaultModel geminiTextFallbackModel
      ≠ geminiRegistryDefaultModel ∧
    geminiValidateModel
      (Except.ok ["models/gemini-pro", "models/gemini-1.5-flash"])
      (some "models/gemini-pro") "gemini-1.5-flash" geminiTextFallbackModel
      = "gemini-1.5-flash" := by
  refine ⟨by decide, by decide, by decide, by decide⟩

/-- C7.  GeminiTextAdapter.generate attempts the API versions in the
fixed order ["v1", "v1beta"]: a successful "v1" attempt is returned with
no further version attempted; a failed "v1" followed by a successful
"v1beta" returns the latter's output; and when both fail the last
encountered error — the "v1beta" one — is raised. -/
theorem c7_version_order (attempt : String → Except String String) :
    (∀ out, attempt "v1" = Except.ok out →
      geminiTextGenerate attempt = (Except.ok out, ["v1"])) ∧
    (∀ e out, attempt "v1" = Except.error e → attempt "v1beta" = Except.ok out →
      geminiTextGenerate attempt = (Except.ok out, ["v1", "v1beta"])) ∧
    (∀ e e2, attempt "v1" = Except.error e → attempt "v1beta" = Except.error e2 →
      geminiTextGenerate attempt = (Except.error e2, ["v1", "v1beta"])) := by
  refine ⟨?_, ?_, ?_⟩
  · intro out h1
    simp [geminiTextGenerate, geminiApiVersions, geminiTryVersions, h1]
  · intro e out h1 h2
    simp [geminiTextGenerate, geminiApiVersions, geminiTryVersions, h1, h2]
  · intro e e2 h1 h2
    simp [geminiTextGenerate, geminiApiVersions, geminiTryVersions, h1, h2]

/-- Closed instantiation of C7 on three concrete attempt functions: "v1"
success short-circuits, "v1beta" rescues a failed "v1", and a double
failure raises the second error. -/
theorem c7_version_order_witness :
    geminiTextGenerate exV1Ok = (Except.ok "from-v1", ["v1"]) ∧
    geminiTextGenerate exV1Fail = (Except.ok "from-beta", ["v1", "v1beta"]) ∧
    geminiTextGenerate exAllFail = (Except.error "e2", ["v1", "v1beta"]) := by
  refine ⟨?_, ?_, ?_⟩
  · exact (c7_version_order exV1Ok).1 "from-v1" rfl
  · exact (c7_version_order exV1Fail).2.1 "v1-down" "from-beta" rfl rfl
  · exact (c7_version_order exAllFail).2.2 "e1" "e2" rfl rfl

/-- C10.  GeminiBaseAdapter.fetchModels is total by type (it returns a
plain list, so the fetch-error branch of the Gemini validator can never
be taken on its output) and returns the hard-coded list
["gemini-1.5-pro-latest", "gemini-1.5-flash-latest"] whenever every API
version's fetch attempt fails; consequently, during a total outage,
validateModelInternal with the GeminiTextAdapter fallback resolves to
"gemini-1.5-pro-latest" — a member of that hard-coded list — and not to
the configured default model. -/
theorem c10_fetch_total_outage (apiKey : String)
    (attempt : String → Except String (List String))
    (model : Option String) (defaultModel : String) (e1 e2 : String)
    (h1 : attempt "v1" = Except.error e1) (h2 : attempt "v1beta" = Except.error e2)
    (hc : jsCandidate model defaultModel ∉ geminiFallbackModels)
    (hd : defaultModel ∉ geminiFallbackModels) :
    geminiFetchModels apiKey attempt = geminiFallbackModels ∧
    geminiValidateModel (Except.ok (geminiFetchModels apiKey attempt)) model
      defaultModel geminiTextFallbackModel = geminiTextFallbackModel ∧
    geminiValidateModel (Except.ok (geminiFetchModels apiKey attempt)) model
      defaultModel geminiTextFallbackModel ≠ defaultModel := by
  have hf : geminiTextFallbackModel ∈ geminiFallbackModels := by decide
  have hlist : geminiFetchModels apiKey attempt = geminiFallbackModels := by
    by_cases hk : apiKey = ""
    · simp [geminiFetchModels, hk]
    · simp [geminiFetchModels, hk, geminiApiVersions, geminiFetchVersions, h1, h2]
  have hnorm : geminiFallbackModels.map stripModelsNs = geminiFallbackModels := by
    decide
  have hval : geminiValidateModel (Except.ok geminiFallbackModels) model
      defaultModel geminiTextFallbackModel = geminiTextFallbackModel := by
    simp [geminiValidateModel, hnorm, hc, hd, hf]
  refine ⟨hlist, by rw [hlist]; exact hval, ?_⟩
  rw [hlist, hval]
  intro hcontra
  exact hd (hcontra ▸ hf)

/-- Closed instantiation of C10: a total outage (every version attempt
fails) with the registry default "models/gemini-pro" yields the
hard-coded list, and validation resolves to "gemini-1.5-pro-latest"
rather than to the configured default. -/
theorem c10_fetch_total_outage_witness :
    geminiFetchModels "key" exFetchOutage = geminiFallbackModels ∧
    geminiValidateModel (Except.ok (geminiFetchModels "key" exFetchOutage)) none
      geminiRegistryDefaultModel geminiTextFallbackModel = geminiTextFallbackModel ∧
    geminiValidateModel (Except.ok (geminiFetchModels "key" exFetchOutage)) none
      geminiRegistryDefaultModel geminiTextFallbackModel ≠ geminiRegistryDefaultModel := by
  exact c10_fetch_total_outage "key" exFetchOutage none geminiRegistryDefaultModel
    "network down" "network down" rfl rfl (by decide) (by decide)

/-- C8.  The claim says every text adapter raises the ProtocolError on a
2xx body lacking the expected nested text and never resolves with empty
output.  Concrete refutation: on the body `\x7bchoices: [\x7b\x7d]\x7d` — the
choices array is present but its first element has no message text —
the OpenRouter adapter resolves successfully with the empty string. -/
theorem c8_counterexample :
    chatContent { choices := some [{ message := none }] } = none ∧
    openRouterParse { choices := some [{ message := none }] } = Except.ok "" := by
  exact ⟨rfl, rfl⟩

/-- C8 amended.  The OpenAI text adapter raises the unexpected-format
ProtocolError on every 2xx body lacking the nested
`choices[0].message.content` text (absent, or empty and hence falsy);
the OpenRouter adapter raises it only when `choices` itself is absent or
not an array, and resolves with empty output whenever the array is
present but the nested text is missing. -/
theorem c8_amended (j : ChatJson) :
    (j.choices = none ∨ (chatContent j).getD "" = "" →
      openAITextParse j =
        Except.error (GwErr.protocolErr "Unexpected OpenAI API response format")) ∧
    (j.choices = none →
      openRouterParse j =
        Except.error (GwErr.protocolErr "Unexpected OpenRouter API response format")) ∧
    (∀ cs, j.choices = some cs → chatContent j = none →
      openRouterParse j = Except.ok "") := by
  refine ⟨?_, ?_, ?_⟩
  · intro h
    simp [openAITextParse, h]
  · intro h
    simp [openRouterParse, h]
  · intro cs hcs hmiss
    simp [openRouterParse, hcs, hmiss]

/-- Closed instantiation of the amended C8: a body with no choices array
makes both adapters raise; the body with a first choice lacking the
message text makes the OpenAI adapter raise and the OpenRouter adapter
resolve with empty output. -/
theorem c8_amended_witness :
    openAITextParse { choices := none } =
      Except.error (GwErr.protocolErr "Unexpected OpenAI API response format") ∧
    openRouterParse { choices := none } =
      Except.error (GwErr.protocolErr "Unexpected OpenRouter API response format") ∧
    openAITextParse { choices := some [{ message := none }] } =
      Except.error (GwErr.protocolErr "Unexpected OpenAI API response format") ∧
    openRouterParse { choices := some [{ message := none }] } = Except.ok "" := by
  refine ⟨?_, ?_, ?_, ?_⟩
  · exact (c8_amended { choices := none }).1 (Or.inl rfl)
  · exact (c8_amended { choices := none }).2.1 rfl
  · exact (c8_amended { choices := some [{ message := none }] }).1 (Or.inr rfl)
  · exact (c8_amended { choices := some [{ message := none }] }).2.2
      [{ message := none }] rfl rfl


/-- Helper: for a supported resolved model, buildImageBody succeeds and
its `n`, `size` and `quality` fields are exactly the resolvers'
outputs. -/
theorem buildImageBody_fields (defaultModel : String) (r : ImageRequest)
    (model : String) (hmodel : jsOrOpt r.model defaultModel = model)
    (hsup : model ∈ imgSupportedModels) :
    ((buildImageBody defaultModel r).map (fun b => b.n) =
      Except.ok (imgResolveN model r.n)) ∧
    ((buildImageBody defaultModel r).map (fun b => b.size) =
      Except.ok (imgResolveSize model r.size)) ∧
    ((buildImageBody defaultModel r).map (fun b => b.quality) =
      Except.ok (imgQualityField model r.quality)) := by
  have hcases : model = "dall-e-3" ∨ model = "dall-e-2" ∨ model = "gpt-image-1" := by
    simpa [imgSupportedModels] using hsup
  rcases hcases with h | h | h <;> subst h
  · refine ⟨?_, ?_, ?_⟩ <;>
      simp [buildImageBody, hmodel, Except.map,
        (by decide : (("dall-e-3" : String) ∈ imgSupportedModels)),
        (by decide : ¬ (("dall-e-3" : String) = "gpt-image-1"))]
  · refine ⟨?_, ?_, ?_⟩ <;>
      simp [buildImageBody, hmodel, Except.map,
        (by decide : (("dall-e-2" : String) ∈ imgSupportedModels)),
        (by decide : ¬ (("dall-e-2" : String) = "gpt-image-1"))]
  · refine ⟨?_, ?_, ?_⟩ <;>
      simp [buildImageBody, hmodel, Except.map,
        (by decide : (("gpt-image-1" : String) ∈ imgSupportedModels))]

/-- C9.  The claim says the body sent by the OpenAI image adapter always
carries a quality from the model's allowed values.  Concrete
refutation: a dall-e-2 request with quality `hd` produces a body with no
quality field at all — dall-e-2's allowed-quality list is empty, so no
body quality could be drawn from it; and a gpt-image-1 request with the
allowed quality `auto` also produces a body with no quality field. -/
theorem c9_counterexample :
    (buildImageBody "dall-e-3"
      { prompt := "p", model := some "dall-e-2", n := some 3,
        size := some "512x512", quality := some ImgQuality.hd }).map
      (fun b => b.quality) = Except.ok none ∧
    imgSupportedQualities "dall-e-2" = [] ∧
    (buildImageBody "dall-e-3"
      { prompt := "p", model := some "gpt-image-1",
        quality := some ImgQuality.auto }).map
      (fun b => b.quality) = Except.ok none ∧
    ImgQuality.auto ∈ imgSupportedQualities "gpt-image-1" := by
  refine ⟨rfl, rfl, rfl, by decide⟩

/-- C9 amended.  For every request whose resolved model is supported,
the body's `n` is the requested count clamped to the model maximum
(treating an absent or zero count as 1), the body's `size` is drawn from
the model's allow-list with pass-through of an allowed requested size
and fallback to the first allowed size otherwise, and the quality field
follows the per-model rule: dall-e-3 always carries the resolved quality
(requested when allowed, else `standard`, the first allowed value);
gpt-image-1 carries the resolved quality (requested when allowed, else
`low`, the first allowed value) except that `auto` is omitted; dall-e-2
carries no quality field. -/
theorem c9_amended (defaultModel : String) (r : ImageRequest) (model : String)
    (hmodel : jsOrOpt r.model defaultModel = model)
    (hsup : model ∈ imgSupportedModels) :
    ((buildImageBody defaultModel r).map (fun b => b.n) =
      Except.ok (imgResolveN model r.n)) ∧
    ((buildImageBody defaultModel r).map (fun b => b.size) =
      Except.ok (imgResolveSize model r.size)) ∧
    ((buildImageBody defaultModel r).map (fun b => b.quality) =
      Except.ok (imgQualityField model r.quality)) ∧
    (∀ k, r.n = some k → 0 < k → imgResolveN model r.n = min k (imgMaxN model)) ∧
    ((r.n = none ∨ r.n = some 0) → imgResolveN model r.n = 1) ∧
    (imgResolveSize model r.size ∈ imgSupportedSizes model) ∧
    (∀ s, r.size = some s → s ≠ "" → s ∈ imgSupportedSizes model →
      imgResolveSize model r.size = s) ∧
    (∀ s, r.size = some s → s ∉ imgSupportedSizes model →
      imgResolveSize model r.size = (imgSupportedSizes model).headD "") ∧
    (model = "dall-e-2" → imgQualityField model r.quality = none) ∧
    (model = "dall-e-3" →
      imgQualityField model r.quality = some (imgResolveQuality model r.quality) ∧
      imgResolveQuality model r.quality ∈ imgSupportedQualities model ∧
      (∀ q, r.quality = some q → q ∈ imgSupportedQualities model →
        imgResolveQuality model r.quality = q) ∧
      (∀ q, r.quality = some q → q ∉ imgSupportedQualities model →
        imgResolveQuality model r.quality = ImgQuality.standard) ∧
      (r.quality = none → imgResolveQuality model r.quality = ImgQuality.standard)) ∧
    (model = "gpt-image-1" →
      imgResolveQuality model r.quality ∈ imgSupportedQualities model ∧
      (∀ q, r.quality = some q → q ∈ imgSupportedQualities model →
        imgResolveQuality model r.quality = q) ∧
      (∀ q, r.quality = some q → q ∉ imgSupportedQualities model →
        imgResolveQuality model r.quality = ImgQuality.low) ∧
      (imgQualityField model r.quality =
        if imgResolveQuality model r.quality = ImgQuality.auto then none
        else some (imgResolveQuality model r.quality))) := by
  have hcases : model = "dall-e-3" ∨ model = "dall-e-2" ∨ model = "gpt-image-1" := by
    simpa [imgSupportedModels] using hsup
  have hone : 1 ≤ imgMaxN model := by
    rcases hcases with h | h | h <;> subst h <;> decide
  obtain ⟨hbn, hbs, hbq⟩ := buildImageBody_fields defaultModel r model hmodel hsup
  refine ⟨hbn, hbs, hbq, ?_, ?_, ?_, ?_, ?_, ?_, ?_, ?_⟩
  · intro k hk hpos
    rw [hk]
    simp only [imgResolveN]
    rw [if_neg (Nat.pos_iff_ne_zero.mp hpos)]
  · intro h
    rcases h with h | h
    · rw [h]
      simp only [imgResolveN]
      exact min_eq_left hone
    · rw [h]
      simp only [imgResolveN]
      simpa using min_eq_left hone
  · rcases hsz : r.size with _ | s
    · rcases hcases with h | h | h <;> subst h <;> decide
    · by_cases hc : s ≠ "" ∧ s ∈ imgSupportedSizes model
      · simp only [imgResolveSize]
        rw [if_pos hc]
        exact hc.2
      · simp only [imgResolveSize]
        rw [if_neg hc]
        rcases hcases with h | h | h <;> subst h <;> decide
  · intro s hs hne hmem
    rw [hs]
    simp only [imgResolveSize]
    rw [if_pos ⟨hne, hmem⟩]
  · intro s hs hmem
    rw [hs]
    simp only [imgResolveSize]
    rw [if_neg (fun hc => hmem hc.2)]
  · intro h
    subst h
    rcases hq : r.quality with _ | q
    · decide
    · cases q <;> decide
  · intro h
    subst h
    refine ⟨?_, ?_, ?_, ?_, ?_⟩
    · rcases hq : r.quality with _ | q
      · decide
      · cases q <;> decide
    · rcases hq : r.quality with _ | q
      · decide
      · cases q <;> decide
    · intro q hq hmem
      rw [hq]
      revert hmem
      cases q <;> decide
    · intro q hq hmem
      rw [hq]
      revert hmem
      cases q <;> decide
    · intro hq
      rw [hq]
      decide
  · intro h
    subst h
    refine ⟨?_, ?_, ?_, ?_⟩
    · rcases hq : r.quality with _ | q
      · decide
      · cases q <;> decide
    · intro q hq hmem
      rw [hq]
      revert hmem
      cases q <;> decide
    · intro q hq hmem
      rw [hq]
      revert hmem
      cases q <;> decide
    · rcases hq : r.quality with _ | q
      · decide
      · cases q <;> decide

/-- Closed instantiation of the amended C9: a gpt-image-1 request asking
for 25 images of an unsupported size with the invalid quality `hd`
produces a body with n clamped to 10, the first allowed size, and
quality `low`. -/
theorem c9_amended_witness :
    (buildImageBody "dall-e-3"
      { prompt := "p", model := some "gpt-image-1", n := some 25,
        size := some "999x999", quality := some ImgQuality.hd }).map
      (fun b => b.n) = Except.ok 10 ∧
    (buildImageBody "dall-e-3"
      { prompt := "p", model := some "gpt-image-1", n := some 25,
        size := some "999x999", quality := some ImgQuality.hd }).map
      (fun b => b.size) = Except.ok "1024x1024" ∧
    (buildImageBody "dall-e-3"
      { prompt := "p", model := some "gpt-image-1", n := some 25,
        size := some "999x999", quality := some ImgQuality.hd }).map
      (fun b => b.quality) = Except.ok (some ImgQuality.low) := by
  have h := c9_amended "dall-e-3"
    { prompt := "p", model := some "gpt-image-1", n := some 25,
      size := some "999x999", quality := some ImgQuality.hd }
    "gpt-image-1" rfl (by decide)
  refine ⟨?_, ?_, ?_⟩
  · rw [h.1]
    rw [h.2.2.2.1 25 rfl (by decide)]
    rfl
  · rw [h.2.1]
    rw [h.2.2.2.2.2.2.2.1 "999x999" rfl (by decide)]
    rfl
  · rw [h.2.2.1]
    have hg := h.2.2.2.2.2.2.2.2.2.2 rfl
    rw [hg.2.2.2]
    rw [hg.2.2.1 ImgQuality.hd rfl (by decide)]
    rfl
